import Mathlib

/-!
Shallow embedding of the imrelp RELP input module
(src/plugins/imrelp/imrelp.c) and proofs about its configuration,
activation, ingestion and shutdown behaviour.

Modelling conventions:
* rsyslog return codes are an inductive type; RS_RET_OK is the success code.
* Calls into external collaborators (librelp, the msg/prop/ruleset objects)
  are modelled by explicit outcome parameters ("oracles"): each fallible
  external call's return code is a field of an oracle structure, and the
  embedded control flow mirrors the C CHKiRet macro
  (if the checked call's code is not RS_RET_OK, jump to finalize and
  return that code).
* Log output via errmsg.LogError is modelled as a list of LogEvent values;
  DBGPRINTF debug tracing is not modelled.
* Heap allocation checked by CHKmalloc is modelled by a Boolean
  allocation-success parameter.
* The state mutated by the module (the process-global pRelpEngine, the
  servers constructed through it, the emitted log) is threaded explicitly.
-/

namespace Imrelp

/-- Return codes (subset of rsyslog rsRetVal relevant to imrelp.c).
RS_RET_ERR stands for any other concrete error code an external call
may return. -/
inductive rsRetVal where
  | RS_RET_OK
  | RS_RET_NOT_FOUND
  | RS_RET_NO_RUN
  | RS_RET_DUP_PARAM
  | RS_RET_MISSING_CNFPARAMS
  | RS_RET_OUT_OF_MEMORY
  | RS_RET_ERR (n : Nat)
deriving DecidableEq, Repr

open rsRetVal

/-- Log lines emitted through errmsg.LogError in imrelp.c, as events:
* portMustBeSpecified: "imrelp: port number must be specified, listener
  ignored" (addInstance, line 217);
* rulesetNotFound name: "imrelp: ruleset ... not found - using default
  ruleset instead" (std_checkRuleset_genErrMsg, line 199);
* dupRulesetParam: "imrelp: warning: ruleset set via legacy directive
  ignored" (endCnfLoad, line 358);
* missingCnfParams: "imrelp: required parameter are missing"
  (newInpInst, line 270). -/
inductive LogEvent where
  | portMustBeSpecified
  | rulesetNotFound (name : String)
  | dupRulesetParam
  | missingCnfParams
deriving DecidableEq, Repr

/-- Flow-control types from rsyslog (eFLOWCTL_*). -/
inductive FlowCtl where
  | NoDelay
  | LightDelay
  | FullDelay
deriving DecidableEq, Repr

/-- librelp command states; imrelp only uses eRelpCmdState_Required. -/
inductive relpCmdState where
  | Required
deriving DecidableEq, Repr

/-- Per-listener configuration, struct instanceConf_s (lines 75-82).
pszBindPort is an Option because the C pointer may be NULL (legacy
addInstance stores the directive value even when it is NULL). The list
linkage (next pointer) is modelled by keeping instances in a Lean list. -/
structure instanceConf where
  pszBindPort : Option String
  bEnableTLS : Bool
  bEnableTLSZip : Bool
  dhBits : Int
  pristring : Option String
deriving DecidableEq, Repr

/-- Defaults set by createInstance (lines 175-179). -/
def defaultInst : instanceConf :=
  { pszBindPort := none, bEnableTLS := false, bEnableTLSZip := false,
    dhBits := 0, pristring := none }

/-- Observable state of one librelp server object (relpSrv_t) as driven by
addListner: which setters were invoked on it and with which arguments.
lstnPort = some p records that relpSrvSetLstnPort was called with p
(p itself is an Option since the C pointer may be NULL); the Calls fields
record each invocation of the corresponding setter; finalized records a
successful relpEngineListnerConstructFinalize. -/
structure relpSrv where
  lstnPort : Option (Option String)
  enableTLSCalls : Nat
  enableTLSZipCalls : Nat
  dhBitsCalls : List Int
  priStringCalls : List (Option String)
  finalized : Bool
deriving DecidableEq, Repr

/-- A freshly constructed server object (no setter invoked yet). -/
def freshSrv : relpSrv :=
  { lstnPort := none, enableTLSCalls := 0, enableTLSZipCalls := 0,
    dhBitsCalls := [], priStringCalls := [], finalized := false }

/-- Observable state of the librelp engine (relpEngine_t) as driven by
addListner's construction block: which configuration setters took effect,
plus the stop flag set by relpEngineSetStop. -/
structure relpEngine where
  dbgSinkSet : Bool
  family : Option Int
  enabledCmds : List (String × relpCmdState)
  rcvCallbackSet : Bool
  dnsLookupMode : Option Int
  bStop : Bool
deriving DecidableEq, Repr

/-- Module state threaded through activation: the process-global
pRelpEngine (none models the NULL pointer), the trace of all server
objects ever constructed through the engine (in construction order), and
the error log. -/
structure ModState where
  engine : Option relpEngine
  srvs : List relpSrv
  log : List LogEvent
deriving DecidableEq, Repr

/-- State right after modInit: pRelpEngine = NULL (line 515), nothing
constructed, nothing logged. -/
def initialModState : ModState := { engine := none, srvs := [], log := [] }

/-- Global settings read by addListner: glbl.GetDefPFFamily() and
glbl.GetDisableDNS(). -/
structure glblSettings where
  defPFFamily : Int
  disableDNS : Bool
deriving DecidableEq, Repr

/-- Outcome oracle for the librelp calls issued by addListner whose return
code the C code checks with CHKiRet. The four TLS setters
(relpSrvEnableTLS, relpSrvEnableTLSZip, relpSrvSetDHBits,
relpSrvSetGnuTLSPriString) have their return values discarded by the C
code, so they need no outcome here. -/
structure EngineOps where
  relpEngineConstruct : rsRetVal
  relpEngineSetDbgprint : rsRetVal
  relpEngineSetFamily : rsRetVal
  relpEngineSetEnableCmd : rsRetVal
  relpEngineSetSyslogRcv : rsRetVal
  relpEngineSetDnsLookupMode : rsRetVal
  relpEngineListnerConstruct : rsRetVal
  relpSrvSetLstnPort : rsRetVal
  relpEngineListnerConstructFinalize : rsRetVal
deriving DecidableEq, Repr

/-- Oracle in which every librelp call succeeds. -/
def allOKEngineOps : EngineOps :=
  { relpEngineConstruct := RS_RET_OK, relpEngineSetDbgprint := RS_RET_OK,
    relpEngineSetFamily := RS_RET_OK, relpEngineSetEnableCmd := RS_RET_OK,
    relpEngineSetSyslogRcv := RS_RET_OK,
    relpEngineSetDnsLookupMode := RS_RET_OK,
    relpEngineListnerConstruct := RS_RET_OK,
    relpSrvSetLstnPort := RS_RET_OK,
    relpEngineListnerConstructFinalize := RS_RET_OK }

/-- The engine-setup calls of an oracle all succeed (the listener-level
calls may still fail). -/
def engineOpsOK (o : EngineOps) : Prop :=
  o.relpEngineConstruct = RS_RET_OK ∧
  o.relpEngineSetDbgprint = RS_RET_OK ∧
  o.relpEngineSetFamily = RS_RET_OK ∧
  o.relpEngineSetEnableCmd = RS_RET_OK ∧
  o.relpEngineSetSyslogRcv = RS_RET_OK ∧
  o.relpEngineSetDnsLookupMode = RS_RET_OK

/-- The listener-level calls of an oracle all succeed: listener
construction, port setting and finalization. -/
def listenerOpsOK (o : EngineOps) : Bool :=
  o.relpEngineListnerConstruct == RS_RET_OK &&
  o.relpSrvSetLstnPort == RS_RET_OK &&
  o.relpEngineListnerConstructFinalize == RS_RET_OK

/-- The sub-list of instances whose own position in the activation loop
has fully succeeding listener-level calls; a listener fails independently
of every other listener's outcome. -/
def succListeners (ops : Nat → EngineOps) :
    List instanceConf → Nat → List instanceConf
  | [], _ => []
  | inst :: rest, i =>
    if listenerOpsOK (ops i) then inst :: succListeners ops rest (i + 1)
    else succListeners ops rest (i + 1)

/-- The engine configuration produced by a fully successful run of the
construction block of addListner (lines 231-240): debug sink set, default
protocol family applied, the "syslog" command marked Required, the receive
callback registered, DNS lookup mode 1 unless DNS is globally disabled. -/
def configuredEngine (g : glblSettings) : relpEngine :=
  { dbgSinkSet := true, family := some g.defPFFamily,
    enabledCmds := [("syslog", relpCmdState.Required)],
    rcvCallbackSet := true,
    dnsLookupMode := if g.disableDNS then none else some 1,
    bStop := false }

/-- The engine-construction block of addListner (lines 231-240):
if(pRelpEngine == NULL) construct and configure it, each call checked with
CHKiRet. A setter whose call fails does not take effect on the engine,
but pRelpEngine itself stays set once relpEngineConstruct succeeded. -/
def ensureEngine (o : EngineOps) (g : glblSettings) (st : ModState) :
    rsRetVal × ModState :=
  match st.engine with
  | some _ => (RS_RET_OK, st)
  | none =>
    if o.relpEngineConstruct ≠ RS_RET_OK then (o.relpEngineConstruct, st)
    else
      let e0 : relpEngine :=
        { dbgSinkSet := false, family := none, enabledCmds := [],
          rcvCallbackSet := false, dnsLookupMode := none, bStop := false }
      if o.relpEngineSetDbgprint ≠ RS_RET_OK then
        (o.relpEngineSetDbgprint, { st with engine := some e0 })
      else
        let e1 := { e0 with dbgSinkSet := true }
        if o.relpEngineSetFamily ≠ RS_RET_OK then
          (o.relpEngineSetFamily, { st with engine := some e1 })
        else
          let e2 := { e1 with family := some g.defPFFamily }
          if o.relpEngineSetEnableCmd ≠ RS_RET_OK then
            (o.relpEngineSetEnableCmd, { st with engine := some e2 })
          else
            let e3 := { e2 with
              enabledCmds := e2.enabledCmds ++ [("syslog", relpCmdState.Required)] }
            if o.relpEngineSetSyslogRcv ≠ RS_RET_OK then
              (o.relpEngineSetSyslogRcv, { st with engine := some e3 })
            else
              let e4 := { e3 with rcvCallbackSet := true }
              if g.disableDNS then (RS_RET_OK, { st with engine := some e4 })
              else if o.relpEngineSetDnsLookupMode ≠ RS_RET_OK then
                (o.relpEngineSetDnsLookupMode, { st with engine := some e4 })
              else
                (RS_RET_OK,
                 { st with engine := some { e4 with dnsLookupMode := some 1 } })

/-- Record a constructed server object in the trace. -/
def pushSrv (st : ModState) (s : relpSrv) : ModState :=
  { st with srvs := st.srvs ++ [s] }

/-- The TLS block of addListner (lines 244-253): executed only when
bEnableTLS is set; relpSrvEnableTLS, then conditionally
relpSrvEnableTLSZip and relpSrvSetDHBits, then unconditionally
relpSrvSetGnuTLSPriString (with the configured string, possibly NULL). -/
def tlsConfigure (inst : instanceConf) (s : relpSrv) : relpSrv :=
  if inst.bEnableTLS then
    let a := { s with enableTLSCalls := s.enableTLSCalls + 1 }
    let b := if inst.bEnableTLSZip then
        { a with enableTLSZipCalls := a.enableTLSZipCalls + 1 }
      else a
    let c := if inst.dhBits ≠ 0 then
        { b with dhBitsCalls := b.dhBitsCalls ++ [inst.dhBits] }
      else b
    { c with priStringCalls := c.priStringCalls ++ [inst.pristring] }
  else s

/-- The listener-construction part of addListner (lines 242-254):
relpEngineListnerConstruct, relpSrvSetLstnPort (both CHKiRet-checked),
the TLS block, then relpEngineListnerConstructFinalize. Every server
object that was constructed is recorded in the trace, also when a later
step fails and the C code abandons it. -/
def addListnerSrvPart (o : EngineOps) (inst : instanceConf) (st : ModState) :
    rsRetVal × ModState :=
  if o.relpEngineListnerConstruct ≠ RS_RET_OK then
    (o.relpEngineListnerConstruct, st)
  else if o.relpSrvSetLstnPort ≠ RS_RET_OK then
    (o.relpSrvSetLstnPort, pushSrv st freshSrv)
  else
    let s2 := tlsConfigure inst { freshSrv with lstnPort := some inst.pszBindPort }
    if o.relpEngineListnerConstructFinalize ≠ RS_RET_OK then
      (o.relpEngineListnerConstructFinalize, pushSrv st s2)
    else (RS_RET_OK, pushSrv st { s2 with finalized := true })

/-- addListner (lines 226-258): the engine-construction block followed by
the listener-construction part; a failure in the engine block returns
immediately (CHKiRet). -/
def addListner (o : EngineOps) (g : glblSettings) (inst : instanceConf)
    (st : ModState) : rsRetVal × ModState :=
  let r1 := ensureEngine o g st
  if r1.1 ≠ RS_RET_OK then r1
  else addListnerSrvPart o inst r1.2

/-- The activation loop of activateCnfPrePrivDrop (lines 394-396): calls
addListner for every instance in list order, discarding the return code.
The oracle is indexed by the position of the instance in the list. -/
def activateLoop (ops : Nat → EngineOps) (g : glblSettings) :
    List instanceConf → Nat → ModState → ModState
  | [], _, st => st
  | inst :: rest, i, st =>
    activateLoop ops g rest (i + 1) ((addListner (ops i) g inst st).2)

/-- activateCnfPrePrivDrop (lines 390-400): run the loop, then
ABORT_FINALIZE(RS_RET_NO_RUN) iff pRelpEngine is still NULL. -/
def activateCnfPrePrivDrop (ops : Nat → EngineOps) (g : glblSettings)
    (insts : List instanceConf) (st : ModState) : rsRetVal × ModState :=
  let stE := activateLoop ops g insts 0 st
  if stE.engine = none then (RS_RET_NO_RUN, stE) else (RS_RET_OK, stE)

/-- createInstance (lines 167-192): allocate an instance with defaults and
append it to the load config's list; on allocation failure return
RS_RET_OUT_OF_MEMORY without appending. -/
def createInstance (allocOK : Bool) (conf : List instanceConf) :
    rsRetVal × List instanceConf :=
  if allocOK then (RS_RET_OK, conf ++ [defaultInst])
  else (RS_RET_OUT_OF_MEMORY, conf)

/-- addInstance (lines 209-223), the legacy $InputRELPServerRun handler:
createInstance, then log the missing-port error when the value is NULL or
empty, then store the value as the (already appended) instance's bind
port. The in-place assignment to the appended instance is modelled by
appending the updated record. -/
def addInstance (allocOK : Bool) (pNewVal : Option String)
    (conf : List instanceConf) (log : List LogEvent) :
    rsRetVal × List instanceConf × List LogEvent :=
  if allocOK then
    let log1 := if pNewVal = none ∨ pNewVal = some "" then
        log ++ [LogEvent.portMustBeSpecified]
      else log
    (RS_RET_OK, conf ++ [{ defaultInst with pszBindPort := pNewVal }], log1)
  else (RS_RET_OUT_OF_MEMORY, conf, log)

/-- checkCnf (lines 368-387). getRuleset models ruleset.GetRuleset on the
downstream registry: it yields the call's return code and the resolved
handle (a handle is a Nat here). On RS_RET_NOT_FOUND the warning is
logged; CHKiRet(localRet) then propagates any non-OK code, leaving
pBindRuleset unassigned. -/
def checkCnf (getRuleset : String → rsRetVal × Option Nat)
    (pszBindRuleset : Option String) (pBindRuleset : Option Nat)
    (log : List LogEvent) : rsRetVal × Option Nat × List LogEvent :=
  match pszBindRuleset with
  | none => (RS_RET_OK, none, log)
  | some name =>
    let localRet := (getRuleset name).1
    let pRuleset := (getRuleset name).2
    let log1 := if localRet = RS_RET_NOT_FOUND then
        log ++ [LogEvent.rulesetNotFound name]
      else log
    if localRet ≠ RS_RET_OK then (localRet, pBindRuleset, log1)
    else (RS_RET_OK, pRuleset, log1)

/-- endCnfLoad (lines 348-365): reconcile the module-parameter ruleset
binding (loadRuleset) with the legacy directive value (csRuleset). The
module parameter wins; a non-empty legacy value next to it only logs the
duplicate-parameter warning. ustrdup of the legacy value is CHKmalloc
checked (allocOK). -/
def endCnfLoad (allocOK : Bool) (loadRuleset csRuleset : Option String)
    (log : List LogEvent) : rsRetVal × Option String × List LogEvent :=
  match loadRuleset with
  | none =>
    if csRuleset = none ∨ csRuleset = some "" then (RS_RET_OK, none, log)
    else if allocOK then (RS_RET_OK, csRuleset, log)
    else (RS_RET_OUT_OF_MEMORY, none, log)
  | some m =>
    if csRuleset ≠ none ∧ csRuleset ≠ some "" then
      (RS_RET_OK, some m, log ++ [LogEvent.dupRulesetParam])
    else (RS_RET_OK, some m, log)

/-- Message-parsing flag bits from msg.h (distinct bits; the header is not
part of src, only the flag names matter to the claims). -/
def NEEDS_PARSING : Nat := 2

/-- Hostname-parsing flag bit, see NEEDS_PARSING. -/
def PARSE_HOSTNAME : Nat := 8

/-- The downstream message object as assembled by onSyslogRcv: the fields
set through the MsgSet* calls (lines 140-153). The ruleset handle is a
Nat as in checkCnf. -/
structure Msg where
  inputName : Option String
  rawMsg : String
  rawLen : Nat
  flowCtlType : FlowCtl
  ruleset : Option Nat
  msgFlags : Nat
  rcvFrom : Option String
  rcvFromIP : Option String
deriving DecidableEq, Repr

/-- A message fresh from msgConstruct, before any setter ran. -/
def emptyMsg : Msg :=
  { inputName := none, rawMsg := "", rawLen := 0,
    flowCtlType := FlowCtl.NoDelay, ruleset := none, msgFlags := 0,
    rcvFrom := none, rcvFromIP := none }

/-- Module-global state read by onSyslogRcv: pInputName (the "imrelp"
input-name property set once in modInit, lines 532-534) and
runModConf->pBindRuleset. onSyslogRcv writes neither. -/
structure ModGlobalState where
  pInputName : Option String
  runBindRuleset : Option Nat
deriving DecidableEq, Repr

/-- Outcome oracle for the fallible calls made by onSyslogRcv, in program
order (lines 140-154). msgSetRcvFromStr is listed although the C code
discards its return value. -/
structure RcvOps where
  msgConstruct : rsRetVal
  msgSetRcvFromStr : rsRetVal
  propDestruct1 : rsRetVal
  msgSetRcvFromIPStr : rsRetVal
  propDestruct2 : rsRetVal
  submitMsg2 : rsRetVal
deriving DecidableEq, Repr

/-- Oracle in which every call made by onSyslogRcv succeeds. -/
def allOKRcvOps : RcvOps :=
  { msgConstruct := RS_RET_OK, msgSetRcvFromStr := RS_RET_OK,
    propDestruct1 := RS_RET_OK, msgSetRcvFromIPStr := RS_RET_OK,
    propDestruct2 := RS_RET_OK, submitMsg2 := RS_RET_OK }

/-- onSyslogRcv (lines 133-159): construct the message, set input name,
raw payload, flow-control type, ruleset and parse flags, attach the two
provenance properties, submit. CHKiRet wraps msgConstruct, both
prop.Destruct calls, MsgSetRcvFromIPStr and submitMsg2; the return value
of MsgSetRcvFromStr (line 150) is discarded, so its failure only leaves
the hostname provenance unset. The result is the return code, the
submitted message (none when nothing was submitted), and the (unchanged)
module-global state. -/
def onSyslogRcv (ops : RcvOps) (gs : ModGlobalState) (pHostname pIP : String)
    (msg : String) (lenMsg : Nat) : rsRetVal × Option Msg × ModGlobalState :=
  if ops.msgConstruct ≠ RS_RET_OK then (ops.msgConstruct, none, gs)
  else
    let m0 : Msg :=
      { emptyMsg with
        inputName := gs.pInputName,
        rawMsg := msg, rawLen := lenMsg,
        flowCtlType := FlowCtl.LightDelay,
        ruleset := gs.runBindRuleset,
        msgFlags := PARSE_HOSTNAME ||| NEEDS_PARSING }
    let m1 := if ops.msgSetRcvFromStr = RS_RET_OK then
        { m0 with rcvFrom := some pHostname }
      else m0
    if ops.propDestruct1 ≠ RS_RET_OK then (ops.propDestruct1, none, gs)
    else if ops.msgSetRcvFromIPStr ≠ RS_RET_OK then
      (ops.msgSetRcvFromIPStr, none, gs)
    else
      let m2 := { m1 with rcvFromIP := some pIP }
      if ops.propDestruct2 ≠ RS_RET_OK then (ops.propDestruct2, none, gs)
      else if ops.submitMsg2 ≠ RS_RET_OK then (ops.submitMsg2, none, gs)
      else (RS_RET_OK, some m2, gs)

/-- Modelled from the spec: librelp relpEngineSetStop, the Protocol
Engine's requestStop primitive, is library code outside this repository.
Per the spec it only flips the engine's internal stop flag, and invoking
it with no engine present is defined as a no-op, not an error. -/
def relpEngineSetStop : Option relpEngine → Option relpEngine
  | none => none
  | some e => some { e with bStop := true }

/-- doSIGTTIN (lines 423-428): the SIGTTIN termination handler; apart from
a debug trace it only calls relpEngineSetStop on the global engine
pointer. -/
def doSIGTTIN (st : ModState) : ModState :=
  { st with engine := relpEngineSetStop st.engine }

/- Concrete sample values used by counterexamples and witnesses. -/

/-- Sample globals: IPv4-ish default family, DNS enabled. -/
def gDefault : glblSettings := { defPFFamily := 2, disableDNS := false }

/-- A valid listener instance bound to port 2514, no TLS. -/
def inst2514 : instanceConf := { defaultInst with pszBindPort := some "2514" }

/-- A listener with TLS disabled but TLS sub-options set, to show they are
ignored. -/
def instNoTLS : instanceConf :=
  { pszBindPort := some "2514", bEnableTLS := false, bEnableTLSZip := true,
    dhBits := 1024, pristring := some "NORMAL" }

/-- A TLS listener with no priority string configured. -/
def instTLSNoPri : instanceConf :=
  { pszBindPort := some "6514", bEnableTLS := true, bEnableTLSZip := true,
    dhBits := 2048, pristring := none }

/-- Oracle in which the engine setup succeeds but listener construction
fails. -/
def opsListnerConstructFails : EngineOps :=
  { allOKEngineOps with relpEngineListnerConstruct := RS_RET_ERR 1 }

/-- A mixed oracle: the first listener's construction call fails, every
call of every other listener succeeds. -/
def mixedOps : Nat → EngineOps :=
  fun i => if i = 0 then opsListnerConstructFails else allOKEngineOps

/-- A downstream registry that knows no ruleset name. -/
def registryEmpty : String → rsRetVal × Option Nat :=
  fun _ => (RS_RET_NOT_FOUND, none)

/-- Sample module-global state for the ingestion callback. -/
def gs0 : ModGlobalState := { pInputName := some "imrelp", runBindRuleset := none }

/-- The fully constructed server object produced for an instance when every
librelp listener call succeeds. -/
def finalSrv (inst : instanceConf) : relpSrv :=
  { tlsConfigure inst { freshSrv with lstnPort := some inst.pszBindPort } with
    finalized := true }

/-- A module state in which the engine already exists (fully configured)
but no listener was constructed yet. -/
def engSt : ModState :=
  { initialModState with engine := some (configuredEngine gDefault) }

/- ------------------------- helper lemmas ------------------------- -/

theorem allOKEngineOps_ok : engineOpsOK allOKEngineOps :=
  ⟨rfl, rfl, rfl, rfl, rfl, rfl⟩

theorem mixedOps_engineOK : ∀ i, engineOpsOK (mixedOps i) := by
  intro i
  by_cases h : i = 0 <;>
    simp [mixedOps, h, opsListnerConstructFails, allOKEngineOps, engineOpsOK]

theorem ensureEngine_some (o : EngineOps) (g : glblSettings) (st : ModState)
    (e : relpEngine) (h : st.engine = some e) :
    ensureEngine o g st = (RS_RET_OK, st) := by
  obtain ⟨eng, srvs, log⟩ := st
  dsimp only at h
  subst h
  rfl

theorem ensureEngine_none (o : EngineOps) (g : glblSettings) (st : ModState)
    (h : st.engine = none) (hok : engineOpsOK o) :
    ensureEngine o g st =
      (RS_RET_OK, { st with engine := some (configuredEngine g) }) := by
  obtain ⟨ho1, ho2, ho3, ho4, ho5, ho6⟩ := hok
  obtain ⟨eng, srvs, log⟩ := st
  dsimp only at h
  subst h
  by_cases hd : g.disableDNS <;>
    simp [ensureEngine, configuredEngine, ho1, ho2, ho3, ho4, ho5, ho6, hd]

theorem ensureEngine_preserves (o : EngineOps) (g : glblSettings) (st : ModState) :
    (ensureEngine o g st).2.srvs = st.srvs ∧ (ensureEngine o g st).2.log = st.log := by
  obtain ⟨eng, srvs, log⟩ := st
  cases eng <;> unfold ensureEngine <;> dsimp only <;>
    repeat' split
  all_goals exact ⟨rfl, rfl⟩

theorem srvPart_engine (o : EngineOps) (inst : instanceConf) (st : ModState) :
    ((addListnerSrvPart o inst st).2).engine = st.engine := by
  by_cases h1 : o.relpEngineListnerConstruct = RS_RET_OK <;>
  by_cases h2 : o.relpSrvSetLstnPort = RS_RET_OK <;>
  by_cases h3 : o.relpEngineListnerConstructFinalize = RS_RET_OK <;>
    simp [addListnerSrvPart, pushSrv, h1, h2, h3]

theorem srvPart_log (o : EngineOps) (inst : instanceConf) (st : ModState) :
    ((addListnerSrvPart o inst st).2).log = st.log := by
  by_cases h1 : o.relpEngineListnerConstruct = RS_RET_OK <;>
  by_cases h2 : o.relpSrvSetLstnPort = RS_RET_OK <;>
  by_cases h3 : o.relpEngineListnerConstructFinalize = RS_RET_OK <;>
    simp [addListnerSrvPart, pushSrv, h1, h2, h3]

theorem srvPart_new (o : EngineOps) (inst : instanceConf) (st : ModState) :
    (addListnerSrvPart o inst st).2.srvs = st.srvs ∨
    ∃ s, (addListnerSrvPart o inst st).2.srvs = st.srvs ++ [s] ∧
      (s = freshSrv ∨
       s = tlsConfigure inst { freshSrv with lstnPort := some inst.pszBindPort } ∨
       s = finalSrv inst) := by
  by_cases h1 : o.relpEngineListnerConstruct = RS_RET_OK <;>
  by_cases h2 : o.relpSrvSetLstnPort = RS_RET_OK <;>
  by_cases h3 : o.relpEngineListnerConstructFinalize = RS_RET_OK <;>
    simp [addListnerSrvPart, pushSrv, finalSrv, h1, h2, h3]

theorem srvPart_ok (o : EngineOps) (inst : instanceConf) (st : ModState)
    (h1 : o.relpEngineListnerConstruct = RS_RET_OK)
    (h2 : o.relpSrvSetLstnPort = RS_RET_OK)
    (h3 : o.relpEngineListnerConstructFinalize = RS_RET_OK) :
    addListnerSrvPart o inst st = (RS_RET_OK, pushSrv st (finalSrv inst)) := by
  simp [addListnerSrvPart, finalSrv, h1, h2, h3]

theorem addListner_engine_some (o : EngineOps) (g : glblSettings)
    (inst : instanceConf) (st : ModState) (e : relpEngine)
    (h : st.engine = some e) :
    ((addListner o g inst st).2).engine = some e := by
  unfold addListner
  rw [ensureEngine_some o g st e h]
  simpa [srvPart_engine] using h

theorem addListner_engine_none (o : EngineOps) (g : glblSettings)
    (inst : instanceConf) (st : ModState)
    (h : st.engine = none) (hok : engineOpsOK o) :
    ((addListner o g inst st).2).engine = some (configuredEngine g) := by
  unfold addListner
  rw [ensureEngine_none o g st h hok]
  simp [srvPart_engine]

theorem addListner_log (o : EngineOps) (g : glblSettings)
    (inst : instanceConf) (st : ModState) :
    ((addListner o g inst st).2).log = st.log := by
  unfold addListner
  by_cases h : (ensureEngine o g st).1 = RS_RET_OK <;> simp [h]
  · rw [srvPart_log]
    exact (ensureEngine_preserves o g st).2
  · exact (ensureEngine_preserves o g st).2


theorem addListner_fail (o : EngineOps) (g : glblSettings) (inst : instanceConf)
    (st : ModState) (h : (ensureEngine o g st).1 ≠ RS_RET_OK) :
    addListner o g inst st = ensureEngine o g st := by
  unfold addListner
  simp [h]

theorem addListner_ok (o : EngineOps) (g : glblSettings) (inst : instanceConf)
    (st : ModState) (h : (ensureEngine o g st).1 = RS_RET_OK) :
    addListner o g inst st = addListnerSrvPart o inst (ensureEngine o g st).2 := by
  unfold addListner
  simp [h]

theorem tlsConfigure_false (inst : instanceConf) (h : inst.bEnableTLS = false)
    (s : relpSrv) : tlsConfigure inst s = s := by
  simp [tlsConfigure, h]

theorem tlsConfigure_finalized (inst : instanceConf) (s : relpSrv) :
    (tlsConfigure inst s).finalized = s.finalized := by
  by_cases ht : inst.bEnableTLS <;>
  by_cases hz : inst.bEnableTLSZip <;>
  by_cases hd : inst.dhBits = 0 <;>
    simp [tlsConfigure, ht, hz, hd]

theorem activate_snd (ops : Nat → EngineOps) (g : glblSettings)
    (insts : List instanceConf) (st : ModState) :
    (activateCnfPrePrivDrop ops g insts st).2 = activateLoop ops g insts 0 st := by
  by_cases h : (activateLoop ops g insts 0 st).engine = none <;>
    simp [activateCnfPrePrivDrop, h]

theorem activate_fst (ops : Nat → EngineOps) (g : glblSettings)
    (insts : List instanceConf) (st : ModState) :
    (activateCnfPrePrivDrop ops g insts st).1 =
      if (activateLoop ops g insts 0 st).engine = none then RS_RET_NO_RUN
      else RS_RET_OK := by
  by_cases h : (activateLoop ops g insts 0 st).engine = none <;>
    simp [activateCnfPrePrivDrop, h]

theorem addListner_allok (g : glblSettings) (inst : instanceConf) (st : ModState) :
    (addListner allOKEngineOps g inst st).1 = RS_RET_OK ∧
    (addListner allOKEngineOps g inst st).2.srvs = st.srvs ++ [finalSrv inst] ∧
    ∃ e, (addListner allOKEngineOps g inst st).2.engine = some e := by
  cases hE : st.engine with
  | none =>
    unfold addListner
    rw [ensureEngine_none allOKEngineOps g st hE allOKEngineOps_ok]
    simp [srvPart_ok allOKEngineOps inst _ rfl rfl rfl, pushSrv]
  | some e =>
    unfold addListner
    rw [ensureEngine_some allOKEngineOps g st e hE]
    simp [srvPart_ok allOKEngineOps inst st rfl rfl rfl, pushSrv, hE]

theorem activateLoop_engine_some (ops : Nat → EngineOps) (g : glblSettings)
    (insts : List instanceConf) :
    ∀ i st e, st.engine = some e →
      (activateLoop ops g insts i st).engine = some e := by
  induction insts with
  | nil => intro i st e h; exact h
  | cons inst rest ih =>
    intro i st e h
    exact ih (i + 1) _ e (addListner_engine_some (ops i) g inst st e h)

theorem activateLoop_log (ops : Nat → EngineOps) (g : glblSettings)
    (insts : List instanceConf) :
    ∀ i st, (activateLoop ops g insts i st).log = st.log := by
  induction insts with
  | nil => intro i st; rfl
  | cons inst rest ih =>
    intro i st
    rw [activateLoop, ih (i + 1) _, addListner_log]

theorem activateLoop_allok_srvs (g : glblSettings) (insts : List instanceConf)
    (ops : Nat → EngineOps) (hops : ∀ i, ops i = allOKEngineOps) :
    ∀ i st, (activateLoop ops g insts i st).srvs = st.srvs ++ insts.map finalSrv := by
  induction insts with
  | nil => intro i st; simp [activateLoop]
  | cons inst rest ih =>
    intro i st
    rw [activateLoop, ih (i + 1) _, hops i, (addListner_allok g inst st).2.1]
    simp

theorem addListner_filter (o : EngineOps) (g : glblSettings)
    (inst : instanceConf) (st : ModState) (hok : engineOpsOK o) :
    ((addListner o g inst st).2).srvs.filter (fun s => s.finalized) =
      st.srvs.filter (fun s => s.finalized) ++
        (if listenerOpsOK o then [finalSrv inst] else []) := by
  have hens : (ensureEngine o g st).1 = RS_RET_OK ∧
      (ensureEngine o g st).2.srvs = st.srvs := by
    cases hE : st.engine with
    | none => rw [ensureEngine_none o g st hE hok]; exact ⟨rfl, rfl⟩
    | some e => rw [ensureEngine_some o g st e hE]; exact ⟨rfl, rfl⟩
  rw [addListner_ok o g inst st hens.1]
  by_cases h1 : o.relpEngineListnerConstruct = RS_RET_OK <;>
  by_cases h2 : o.relpSrvSetLstnPort = RS_RET_OK <;>
  by_cases h3 : o.relpEngineListnerConstructFinalize = RS_RET_OK <;>
    simp [addListnerSrvPart, pushSrv, listenerOpsOK, h1, h2, h3, hens.2,
      List.filter_append, finalSrv, freshSrv, tlsConfigure_finalized]

theorem activateLoop_filter (ops : Nat → EngineOps) (g : glblSettings)
    (hops : ∀ i, engineOpsOK (ops i)) (insts : List instanceConf) :
    ∀ i st, (activateLoop ops g insts i st).srvs.filter (fun s => s.finalized) =
      st.srvs.filter (fun s => s.finalized) ++
        (succListeners ops insts i).map finalSrv := by
  induction insts with
  | nil => intro i st; simp [activateLoop, succListeners]
  | cons inst rest ih =>
    intro i st
    rw [activateLoop, ih (i + 1) _, addListner_filter (ops i) g inst st (hops i)]
    by_cases h : listenerOpsOK (ops i) = true <;>
      simp [succListeners, h, List.append_assoc]

theorem activateLoop_allok_engine (g : glblSettings) (inst : instanceConf)
    (rest : List instanceConf) (ops : Nat → EngineOps)
    (hops : ∀ i, ops i = allOKEngineOps) (i : Nat) (st : ModState) :
    ∃ e, (activateLoop ops g (inst :: rest) i st).engine = some e := by
  rw [activateLoop, hops i]
  obtain ⟨e, he⟩ := (addListner_allok g inst st).2.2
  exact ⟨e, activateLoop_engine_some ops g rest (i + 1) _ e he⟩

/- ------------------------- claim theorems ------------------------- -/

/-- C1 (code evaluation at the failing input): a legacy listener directive
with an empty port value logs the "port number must be specified, listener
ignored" error but keeps the instance in the config list; activation then
constructs and finalizes an engine listener for that very configuration
(with the empty port) and reports success appropriately, contradicting the
claim that no engine listener is constructed for it. -/
theorem c1_empty_port_listener_still_constructed :
    (addInstance true (some "") [] []).1 = RS_RET_OK ∧
    (addInstance true (some "") [] []).2.2 = [LogEvent.portMustBeSpecified] ∧
    (addInstance true (some "") [] []).2.1 =
      [{ defaultInst with pszBindPort := some "" }] ∧
    (activateCnfPrePrivDrop (fun _ => allOKEngineOps) gDefault
        (addInstance true (some "") [] []).2.1 initialModState).1 = RS_RET_OK ∧
    ((activateCnfPrePrivDrop (fun _ => allOKEngineOps) gDefault
        (addInstance true (some "") [] []).2.1 initialModState).2.srvs.filter
        (fun s => s.finalized)).length = 1 ∧
    ((activateCnfPrePrivDrop (fun _ => allOKEngineOps) gDefault
        (addInstance true (some "") [] []).2.1 initialModState).2.srvs.map
        (fun s => s.lstnPort)) = [some (some "")] := by
  decide

/-- C2 (code evaluation at the failing input): when the bound ruleset name
is not found in the downstream registry, checkCnf logs the recoverable
"using default ruleset instead" warning and leaves the resolved ruleset at
the default, but then returns RS_RET_NOT_FOUND instead of RS_RET_OK: the
configuration check fails, contradicting the claim that the check itself
succeeds. -/
theorem c2_unresolved_ruleset_check_fails :
    checkCnf registryEmpty (some "rs") none [] =
      (RS_RET_NOT_FOUND, none, [LogEvent.rulesetNotFound "rs"]) := by
  decide

/-- C3 counterexample: one listener with a valid distinct port, the engine
constructs successfully but the listener construction call fails. Zero
listeners become usable, yet activation reports RS_RET_OK (not the fatal
no-run code) and nothing at all is logged, refuting both "a single
listener failure is logged" and "fatal exactly when zero listeners became
usable". -/
theorem c3_counterexample :
    (activateCnfPrePrivDrop (fun _ => opsListnerConstructFails) gDefault
        [inst2514] initialModState).1 = RS_RET_OK ∧
    (activateCnfPrePrivDrop (fun _ => opsListnerConstructFails) gDefault
        [inst2514] initialModState).2.srvs = [] ∧
    (activateCnfPrePrivDrop (fun _ => opsListnerConstructFails) gDefault
        [inst2514] initialModState).2.log = [] := by
  decide

/-- C3 (amended): activation attempts every instance in list order and,
when every engine and listener construction call succeeds, constructs
exactly one finalized engine listener per instance, in order, and reports
success for a non-empty instance list; a failing listener is skipped
silently (activation never logs anything) and only that listener is
skipped: whenever the engine-setup calls succeed, the finalized listeners
are exactly those instances whose own position's listener calls succeed,
in list order, so one listener's failure never affects any other
listener; the overall result is the fatal RS_RET_NO_RUN exactly when the
engine pointer is still null after the loop, which is not equivalent to
zero listeners having been constructed. -/
theorem c3_amended_activation (ops : Nat → EngineOps) (g : glblSettings)
    (insts : List instanceConf) :
    (activateCnfPrePrivDrop ops g insts initialModState).2.log = [] ∧
    ((activateCnfPrePrivDrop ops g insts initialModState).1 = RS_RET_NO_RUN ↔
      (activateCnfPrePrivDrop ops g insts initialModState).2.engine = none) ∧
    ((∀ i, engineOpsOK (ops i)) →
      (activateCnfPrePrivDrop ops g insts initialModState).2.srvs.filter
        (fun s => s.finalized) = (succListeners ops insts 0).map finalSrv) ∧
    ((∀ i, ops i = allOKEngineOps) →
      (activateCnfPrePrivDrop ops g insts initialModState).2.srvs =
        insts.map finalSrv ∧
      (∀ s ∈ (activateCnfPrePrivDrop ops g insts initialModState).2.srvs,
        s.finalized = true) ∧
      (insts ≠ [] →
        (activateCnfPrePrivDrop ops g insts initialModState).1 = RS_RET_OK)) := by
  refine ⟨?_, ?_, ?_, ?_⟩
  · rw [activate_snd, activateLoop_log]
    rfl
  · rw [activate_snd, activate_fst]
    by_cases h : (activateLoop ops g insts 0 initialModState).engine = none <;>
      simp [h]
  · intro hops
    rw [activate_snd, activateLoop_filter ops g hops insts 0 initialModState]
    rfl
  · intro hops
    refine ⟨?_, ?_, ?_⟩
    · rw [activate_snd, activateLoop_allok_srvs g insts ops hops]
      rfl
    · rw [activate_snd, activateLoop_allok_srvs g insts ops hops]
      intro s hs
      simp only [initialModState, List.nil_append, List.mem_map] at hs
      obtain ⟨inst, _, rfl⟩ := hs
      rfl
    · intro hne
      cases insts with
      | nil => exact absurd rfl hne
      | cons inst rest =>
        rw [activate_fst]
        obtain ⟨e, he⟩ :=
          activateLoop_allok_engine g inst rest ops hops 0 initialModState
        simp [he]

/-- C3 amended witness. First part: a mixed run in which the first
listener's construction fails while every call of the second succeeds
still finalizes exactly the second listener, showing the failure is
isolated to the failing listener. Second and third parts: with every call
succeeding, both listeners are constructed in order and activation
reports success. -/
theorem c3_amended_activation_witness :
    (activateCnfPrePrivDrop mixedOps gDefault [inst2514, instTLSNoPri]
        initialModState).2.srvs.filter (fun s => s.finalized) =
      [finalSrv instTLSNoPri] ∧
    (activateCnfPrePrivDrop (fun _ => allOKEngineOps) gDefault
        [inst2514, instTLSNoPri] initialModState).2.srvs =
      [inst2514, instTLSNoPri].map finalSrv ∧
    (activateCnfPrePrivDrop (fun _ => allOKEngineOps) gDefault
        [inst2514, instTLSNoPri] initialModState).1 = RS_RET_OK := by
  have hmix := (c3_amended_activation mixedOps gDefault
      [inst2514, instTLSNoPri]).2.2.1 mixedOps_engineOK
  have hall := (c3_amended_activation (fun _ => allOKEngineOps) gDefault
      [inst2514, instTLSNoPri]).2.2.2 (fun _ => rfl)
  exact ⟨hmix.trans (by decide), hall.1, hall.2.2 (List.cons_ne_nil _ _)⟩

/-- C4: on a received record with hostname h, IP literal i, and payload p
of length n, with all downstream calls succeeding, the callback builds and
submits exactly one message carrying the "imrelp" input name, raw payload
p with length n, the light-delay flow-control hint, the module's resolved
(or default) ruleset, the PARSE_HOSTNAME and NEEDS_PARSING flags and both
provenance properties, returns RS_RET_OK, leaves the module-global state
untouched, and therefore behaves identically on a repeated identical
input. -/
theorem c4_ingestion (gs : ModGlobalState) (h i p : String) (n : Nat)
    (hname : gs.pInputName = some "imrelp") :
    (onSyslogRcv allOKRcvOps gs h i p n).1 = RS_RET_OK ∧
    (onSyslogRcv allOKRcvOps gs h i p n).2.1 = some
      { inputName := some "imrelp", rawMsg := p, rawLen := n,
        flowCtlType := FlowCtl.LightDelay, ruleset := gs.runBindRuleset,
        msgFlags := PARSE_HOSTNAME ||| NEEDS_PARSING,
        rcvFrom := some h, rcvFromIP := some i } ∧
    (onSyslogRcv allOKRcvOps gs h i p n).2.2 = gs ∧
    onSyslogRcv allOKRcvOps ((onSyslogRcv allOKRcvOps gs h i p n).2.2) h i p n =
      onSyslogRcv allOKRcvOps gs h i p n := by
  refine ⟨rfl, ?_, rfl, rfl⟩
  simp [onSyslogRcv, allOKRcvOps, emptyMsg, hname]

/-- C4 witness at the spec's own example input. -/
theorem c4_ingestion_witness :
    (onSyslogRcv allOKRcvOps gs0 "h1" "10.0.0.5" "hello" 5).2.1 = some
      { inputName := some "imrelp", rawMsg := "hello", rawLen := 5,
        flowCtlType := FlowCtl.LightDelay, ruleset := gs0.runBindRuleset,
        msgFlags := PARSE_HOSTNAME ||| NEEDS_PARSING,
        rcvFrom := some "h1", rcvFromIP := some "10.0.0.5" } :=
  (c4_ingestion gs0 "h1" "10.0.0.5" "hello" 5 rfl).2.1

/-- C5 counterexample: when the hostname-provenance setter
(MsgSetRcvFromStr) fails and every other call succeeds, the callback still
returns RS_RET_OK (its return value is discarded at line 150) and submits
a message with no hostname provenance, refuting the claim that every
provenance-property failure yields a non-OK result. -/
theorem c5_counterexample :
    (onSyslogRcv { allOKRcvOps with msgSetRcvFromStr := RS_RET_ERR 1 } gs0
        "h1" "10.0.0.5" "hello" 5).1 = RS_RET_OK ∧
    (onSyslogRcv { allOKRcvOps with msgSetRcvFromStr := RS_RET_ERR 1 } gs0
        "h1" "10.0.0.5" "hello" 5).2.1 = some
      { inputName := some "imrelp", rawMsg := "hello", rawLen := 5,
        flowCtlType := FlowCtl.LightDelay, ruleset := none,
        msgFlags := PARSE_HOSTNAME ||| NEEDS_PARSING,
        rcvFrom := none, rcvFromIP := some "10.0.0.5" } :=
  ⟨rfl, rfl⟩

/-- C5 (amended): the callback returns RS_RET_OK exactly when the
CHKiRet-checked steps succeed: message construction, both property
destructions, the IP-provenance setter, and downstream submission; a
failure of the hostname-provenance setter is ignored (its return value is
discarded) and never affects the result. -/
theorem c5_amended_result (ops : RcvOps) (gs : ModGlobalState)
    (h i p : String) (n : Nat) :
    (onSyslogRcv ops gs h i p n).1 = RS_RET_OK ↔
      (ops.msgConstruct = RS_RET_OK ∧ ops.propDestruct1 = RS_RET_OK ∧
       ops.msgSetRcvFromIPStr = RS_RET_OK ∧ ops.propDestruct2 = RS_RET_OK ∧
       ops.submitMsg2 = RS_RET_OK) := by
  unfold onSyslogRcv
  by_cases h1 : ops.msgConstruct = RS_RET_OK <;>
  by_cases h2 : ops.propDestruct1 = RS_RET_OK <;>
  by_cases h3 : ops.msgSetRcvFromIPStr = RS_RET_OK <;>
  by_cases h4 : ops.propDestruct2 = RS_RET_OK <;>
  by_cases h5 : ops.submitMsg2 = RS_RET_OK <;>
    simp [h1, h2, h3, h4, h5]

/-- C6: the termination-signal handler is safe with no engine present
(before run or after teardown): it is then an exact no-op; with an engine
present it only flips the engine's stop flag, touching no other state and
deallocating nothing. The engine-stop primitive itself is modelled from
the spec since librelp is outside this repository. -/
theorem c6_requestStop_noop (st : ModState) :
    (st.engine = none → doSIGTTIN st = st) ∧
    (∀ e, st.engine = some e →
      doSIGTTIN st = { st with engine := some { e with bStop := true } }) := by
  obtain ⟨eng, srvs, log⟩ := st
  constructor
  · intro h
    dsimp only at h
    subst h
    rfl
  · intro e h
    dsimp only at h
    subst h
    rfl

/-- C6 witness: concrete no-engine and engine-present invocations. -/
theorem c6_requestStop_noop_witness :
    doSIGTTIN initialModState = initialModState ∧
    doSIGTTIN engSt =
      { engSt with engine := some { configuredEngine gDefault with bStop := true } } :=
  ⟨(c6_requestStop_noop initialModState).1 rfl,
   (c6_requestStop_noop engSt).2 (configuredEngine gDefault) rfl⟩

/-- C7: the engine is constructed and configured at most once. Any
addListner call that observes a non-null engine leaves the engine object
completely unchanged (no configuration step is re-run); starting from the
fresh process state, activation of a non-empty instance list with
succeeding engine-setup calls leaves the engine exactly in its
once-configured state (debug sink set, default address family, "syslog"
Required, receive callback registered, DNS lookup enabled unless globally
disabled), and activation of an empty list never constructs it. -/
theorem c7_engine_singleton (ops : Nat → EngineOps) (g : glblSettings)
    (insts : List instanceConf) (hok : ∀ i, engineOpsOK (ops i)) :
    (∀ (o : EngineOps) (inst : instanceConf) (st : ModState) (e : relpEngine),
      st.engine = some e → ((addListner o g inst st).2).engine = some e) ∧
    (insts ≠ [] →
      ((activateCnfPrePrivDrop ops g insts initialModState).2).engine =
        some (configuredEngine g)) ∧
    (insts = [] →
      ((activateCnfPrePrivDrop ops g insts initialModState).2).engine = none) := by
  refine ⟨fun o inst st e h => addListner_engine_some o g inst st e h, ?_, ?_⟩
  · intro hne
    cases insts with
    | nil => exact absurd rfl hne
    | cons inst rest =>
      rw [activate_snd, activateLoop]
      exact activateLoop_engine_some ops g rest 1 _ (configuredEngine g)
        (addListner_engine_none (ops 0) g inst initialModState rfl (hok 0))
  · intro hnil
    subst hnil
    rw [activate_snd]
    rfl

/-- C7 witness: a single listener activated from the fresh state with all
calls succeeding leaves the engine in exactly its configured state. -/
theorem c7_engine_singleton_witness :
    ((activateCnfPrePrivDrop (fun _ => allOKEngineOps) gDefault [inst2514]
        initialModState).2).engine = some (configuredEngine gDefault) :=
  (c7_engine_singleton (fun _ => allOKEngineOps) gDefault [inst2514]
      (fun _ => allOKEngineOps_ok)).2.1 (List.cons_ne_nil _ _)

/-- C8: for a listener configuration with TLS disabled, no TLS setting is
applied to the server object constructed by this addListner call: TLS is
not enabled, compression is not enabled, DH bits are never set and the
priority-string setter is never invoked, regardless of the values of the
TLS sub-options in the configuration. -/
theorem c8_tls_disabled_noop (o : EngineOps) (g : glblSettings)
    (inst : instanceConf) (st : ModState) (hTLS : inst.bEnableTLS = false) :
    ∀ s ∈ ((addListner o g inst st).2).srvs.drop st.srvs.length,
      s.enableTLSCalls = 0 ∧ s.enableTLSZipCalls = 0 ∧
      s.dhBitsCalls = [] ∧ s.priStringCalls = [] := by
  have hens := ensureEngine_preserves o g st
  by_cases hr : (ensureEngine o g st).1 = RS_RET_OK
  · rw [addListner_ok o g inst st hr]
    rcases srvPart_new o inst (ensureEngine o g st).2 with hc | ⟨s, hs, hmem⟩
    · rw [hc, hens.1, List.drop_length]
      simp
    · rw [hs, hens.1, List.drop_left]
      intro s2 h2
      have hss : s2 = s := by simpa using h2
      subst hss
      rcases hmem with h | h | h <;> subst h <;>
        simp [freshSrv, finalSrv, tlsConfigure_false inst hTLS]
  · rw [addListner_fail o g inst st hr, hens.1, List.drop_length]
    simp

/-- C8 witness: a TLS-disabled listener with all TLS sub-options set still
produces a server with no TLS call applied. -/
theorem c8_tls_disabled_noop_witness :
    (finalSrv instNoTLS).enableTLSCalls = 0 ∧
    (finalSrv instNoTLS).enableTLSZipCalls = 0 ∧
    (finalSrv instNoTLS).dhBitsCalls = [] ∧
    (finalSrv instNoTLS).priStringCalls = [] :=
  c8_tls_disabled_noop allOKEngineOps gDefault instNoTLS initialModState rfl
    (finalSrv instNoTLS) (by decide)

/-- C9: for a listener configuration with TLS enabled, once the server is
constructed and its port set, the priority-string setter is invoked
exactly once (also when the configured priority string is absent, i.e. the
library default is requested), compression is enabled iff tlsCompression
is set, and DH bits are set iff dhBits is non-zero. -/
theorem c9_tls_enabled_setters (o : EngineOps) (g : glblSettings)
    (inst : instanceConf) (st : ModState)
    (hTLS : inst.bEnableTLS = true) (heng : st.engine ≠ none)
    (hlc : o.relpEngineListnerConstruct = RS_RET_OK)
    (hsp : o.relpSrvSetLstnPort = RS_RET_OK) :
    ∃ s, ((addListner o g inst st).2).srvs.drop st.srvs.length = [s] ∧
      s.priStringCalls = [inst.pristring] ∧
      s.enableTLSCalls = 1 ∧
      s.enableTLSZipCalls = (if inst.bEnableTLSZip then 1 else 0) ∧
      s.dhBitsCalls = (if inst.dhBits ≠ 0 then [inst.dhBits] else []) ∧
      s.lstnPort = some inst.pszBindPort := by
  obtain ⟨e, he⟩ : ∃ e, st.engine = some e := by
    cases hE : st.engine
    · exact absurd hE heng
    · exact ⟨_, rfl⟩
  have hr : (ensureEngine o g st).1 = RS_RET_OK := by
    rw [ensureEngine_some o g st e he]
  rw [addListner_ok o g inst st hr, ensureEngine_some o g st e he]
  unfold addListnerSrvPart
  by_cases hf : o.relpEngineListnerConstructFinalize = RS_RET_OK <;>
    simp only [hlc, hsp, hf, ne_eq, not_true_eq_false, if_false, ite_false,
      ite_true, not_false_eq_true, if_true, pushSrv, List.drop_left] <;>
    refine ⟨_, rfl, ?_, ?_, ?_, ?_, ?_⟩ <;>
    by_cases hz : inst.bEnableTLSZip <;>
    by_cases hd : inst.dhBits = 0 <;>
    simp [tlsConfigure, freshSrv, hTLS, hz, hd]

/-- C9 witness: a TLS listener with compression on, DH bits 2048 and no
configured priority string gets the priority-string setter invoked exactly
once with the absent string. -/
theorem c9_tls_enabled_setters_witness :
    ∃ s, ((addListner allOKEngineOps gDefault instTLSNoPri engSt).2).srvs.drop
        engSt.srvs.length = [s] ∧
      s.priStringCalls = [instTLSNoPri.pristring] ∧
      s.enableTLSCalls = 1 ∧
      s.enableTLSZipCalls = (if instTLSNoPri.bEnableTLSZip then 1 else 0) ∧
      s.dhBitsCalls = (if instTLSNoPri.dhBits ≠ 0 then [instTLSNoPri.dhBits] else []) ∧
      s.lstnPort = some instTLSNoPri.pszBindPort :=
  c9_tls_enabled_setters allOKEngineOps gDefault instTLSNoPri engSt rfl
    (by decide) rfl rfl

/-- C10: when a ruleset binding is given both by the module parameter and
a non-empty legacy directive, end-of-load keeps the module-parameter
binding, logs the duplicate-parameter warning and completes successfully;
a module parameter alone (legacy absent or empty) is kept without warning;
a non-empty legacy directive alone becomes the binding; an empty or absent
legacy value alone leaves the module unbound. -/
theorem c10_ruleset_binding_precedence (m c : String) (leg : List LogEvent)
    (hc : c ≠ "") :
    endCnfLoad true (some m) (some c) leg =
      (RS_RET_OK, some m, leg ++ [LogEvent.dupRulesetParam]) ∧
    endCnfLoad true (some m) none leg = (RS_RET_OK, some m, leg) ∧
    endCnfLoad true (some m) (some "") leg = (RS_RET_OK, some m, leg) ∧
    endCnfLoad true none (some c) leg = (RS_RET_OK, some c, leg) ∧
    endCnfLoad true none (some "") leg = (RS_RET_OK, none, leg) ∧
    endCnfLoad true none none leg = (RS_RET_OK, none, leg) := by
  refine ⟨?_, ?_, ?_, ?_, ?_, ?_⟩ <;> simp [endCnfLoad, hc]

/-- C10 witness at concrete ruleset names. -/
theorem c10_ruleset_binding_precedence_witness :
    endCnfLoad true (some "rsNew") (some "rsLegacy") [] =
      (RS_RET_OK, some "rsNew", [LogEvent.dupRulesetParam]) ∧
    endCnfLoad true none (some "rsLegacy") [] = (RS_RET_OK, some "rsLegacy", []) :=
  ⟨(c10_ruleset_binding_precedence "rsNew" "rsLegacy" [] (by decide)).1,
   (c10_ruleset_binding_precedence "rsNew" "rsLegacy" [] (by decide)).2.2.2.1⟩

end Imrelp
